import Mathlib

/-!
Shallow embedding of the spaced-repetition scheduler and the Japanese text
analysis services of the repository.

* `update_sm2_parameters` embeds
  `src/backend-new/src/app/models/user_progress.py`,
  `UserProgress.update_sm2_parameters`.  Python `float` arithmetic is
  modelled as exact rational arithmetic (`ℚ`); Python `int` as `ℤ`.
  The clock-dependent fields (`next_review_date`, `last_studied`) and the
  database identity fields are omitted: no claim mentions them and they are
  set from the wall clock, not from the SM-2 state.
* `apply_study_result` embeds the operation guarded by the `StudyResult`
  schema (`src/backend-new/src/app/schemas/user_progress.py`), whose
  `quality_rating` field carries the constraints `ge=0, le=5`.
-/

/-- Truncation toward zero, as Python `int()` applied to a float. -/
def truncInt (q : ℚ) : ℤ := if 0 ≤ q then ⌊q⌋ else ⌈q⌉

/-- The SM-2 relevant state of a `UserProgress` row. -/
structure StudyState where
  repetition_count : ℤ
  easiness_factor : ℚ
  interval_days : ℤ
  correct_answers : ℤ
  total_attempts : ℤ
  current_streak : ℤ
  best_streak : ℤ
  study_status : String
  mastery_level : ℤ
deriving Repr, DecidableEq

/-- `UserProgress.update_sm2_parameters`, translated statement by statement
from `user_progress.py` lines 56-90.  The two clock assignments between the
interval update and the mastery update are omitted (see module comment). -/
def update_sm2_parameters (s : StudyState) (quality_rating : ℤ) : StudyState :=
  let s1 :=
    if quality_rating < 3 then
      { s with repetition_count := 0, interval_days := 1, current_streak := 0 }
    else
      let rep := s.repetition_count + 1
      let streak := s.current_streak + 1
      let best := max s.best_streak streak
      let d : ℚ := ((5 - quality_rating : ℤ) : ℚ)
      let ef := max (13/10 : ℚ) (s.easiness_factor + (1/10 - d * (2/25 + d * (1/50))))
      let interval : ℤ :=
        if rep = 1 then 1
        else if rep = 2 then 6
        else truncInt ((s.interval_days : ℚ) * ef)
      { s with repetition_count := rep, current_streak := streak, best_streak := best,
               easiness_factor := ef, interval_days := interval }
  if s1.current_streak ≥ 5 ∧ quality_rating ≥ 4 then
    let m := min 5 (s1.mastery_level + 1)
    { s1 with mastery_level := m,
              study_status := if m ≥ 4 then "mastered" else s1.study_status }
  else if s1.repetition_count > 0 then
    { s1 with study_status := if quality_rating ≥ 3 then "review" else "learning" }
  else s1

/-- Error raised when the `StudyResult` schema rejects a payload. -/
inductive SchedError where
  | invalidInput
deriving Repr, DecidableEq

/-- The scheduler update operation as exposed through the `StudyResult`
schema: the Pydantic field constraint `ge=0, le=5` on `quality_rating`
rejects an out-of-range rating before `update_sm2_parameters` runs. -/
def apply_study_result (s : StudyState) (quality_rating : ℤ) :
    Except SchedError StudyState :=
  if 0 ≤ quality_rating ∧ quality_rating ≤ 5 then
    Except.ok (update_sm2_parameters s quality_rating)
  else
    Except.error SchedError.invalidInput

/-!
Japanese text analysis.  Python strings are modelled as `List Char`
(sequences of Unicode code points, matching Python `str` indexing and
`ord`).

* `analyze_text_composition` embeds
  `src/backend-new/src/app/services/furigana_generator.py`,
  `FuriganaGenerator.analyze_text_composition` (lines 141-171).
* `estimate_jlpt_level`, `_estimate_difficulty`, `_detect_sentence_type`
  and `process_japanese_sentence` embed the corresponding methods of
  `src/backend-new/src/app/services/japanese_processor.py`.  The furigana
  and romanization fields of `process_japanese_sentence` are produced by
  the external `pykakasi`/`jaconv` libraries and are outside the model;
  only the pure fields the claims mention are embedded.
-/

/-- The five character buckets returned by `analyze_text_composition`. -/
structure CharComposition where
  kanji : ℕ
  hiragana : ℕ
  katakana : ℕ
  ascii : ℕ
  other : ℕ
deriving Repr, DecidableEq

/-- Sum of the five buckets, as `sum(composition.values())` in
`estimate_jlpt_level` and `_estimate_difficulty`. -/
def CharComposition.total (r : CharComposition) : ℕ :=
  r.kanji + r.hiragana + r.katakana + r.ascii + r.other

/-- One iteration of the character loop of `analyze_text_composition`:
the `if`/`elif` chain assigns the character to its first matching bucket.
Python `'一' <= char <= '鿿'` compares code points and
`char.isascii()` holds exactly for code points below 128. -/
def countStep (r : CharComposition) (c : Char) : CharComposition :=
  if 0x4e00 ≤ c.toNat ∧ c.toNat ≤ 0x9fff then { r with kanji := r.kanji + 1 }
  else if 0x3040 ≤ c.toNat ∧ c.toNat ≤ 0x309f then { r with hiragana := r.hiragana + 1 }
  else if 0x30a0 ≤ c.toNat ∧ c.toNat ≤ 0x30ff then { r with katakana := r.katakana + 1 }
  else if c.toNat < 128 then { r with ascii := r.ascii + 1 }
  else { r with other := r.other + 1 }

/-- `FuriganaGenerator.analyze_text_composition`: fold the character loop
over the text, starting from the all-zero dictionary. -/
def analyze_text_composition (text : List Char) : CharComposition :=
  text.foldl countStep ⟨0, 0, 0, 0, 0⟩

/-- `JapaneseProcessor.estimate_jlpt_level` (lines 156-196): `None` when the
bucket total is zero, otherwise the first matching kanji-ratio threshold.
Float thresholds `0.2`, `0.4`, `0.6` are the exact rationals
`1/5`, `2/5`, `3/5`. -/
def estimate_jlpt_level (text : List Char) : Option String :=
  let composition := analyze_text_composition text
  let total_chars := composition.total
  if total_chars = 0 then none
  else
    let kanji_ratio : ℚ := (composition.kanji : ℚ) / (total_chars : ℚ)
    if kanji_ratio = 0 then some "N5"
    else if kanji_ratio ≤ 1/5 then some "N4"
    else if kanji_ratio ≤ 2/5 then some "N3"
    else if kanji_ratio ≤ 3/5 then some "N2"
    else some "N1"

/-- `JapaneseProcessor._estimate_difficulty` (lines 263-300): base level
from the kanji ratio, then adjusted by the raw text length. -/
def estimate_difficulty (text : List Char) (composition : CharComposition) : ℤ :=
  let total_chars := composition.total
  if total_chars = 0 then 1
  else
    let kanji_ratio : ℚ := (composition.kanji : ℚ) / (total_chars : ℚ)
    let difficulty : ℤ :=
      if kanji_ratio = 0 then 1
      else if kanji_ratio ≤ 1/5 then 2
      else if kanji_ratio ≤ 2/5 then 3
      else if kanji_ratio ≤ 3/5 then 4
      else 5
    if text.length > 50 then min 5 (difficulty + 1)
    else if text.length < 10 then max 1 (difficulty - 1)
    else difficulty

/-- Python whitespace, the set stripped by `str.strip()` with no argument
(the Unicode White_Space code points). -/
def pyIsSpace (c : Char) : Bool :=
  c.toNat ∈ ([0x09, 0x0a, 0x0b, 0x0c, 0x0d, 0x1c, 0x1d, 0x1e, 0x1f,
    0x20, 0x85, 0xa0, 0x1680, 0x2000, 0x2001, 0x2002, 0x2003, 0x2004,
    0x2005, 0x2006, 0x2007, 0x2008, 0x2009, 0x200a, 0x2028, 0x2029,
    0x202f, 0x205f, 0x3000] : List Nat)

/-- Python `str.strip()`: drop whitespace from both ends. -/
def pyStrip (l : List Char) : List Char :=
  ((l.dropWhile pyIsSpace).reverse.dropWhile pyIsSpace).reverse

/-- Python `str.endswith(pat)` on code-point sequences. -/
def endswith (t pat : List Char) : Bool := decide (pat <:+ t)

/-- `JapaneseProcessor._detect_sentence_type` (lines 306-327): strip, then
test the ending patterns in the order the code writes them. -/
def detect_sentence_type (text : List Char) : String :=
  let text := pyStrip text
  if endswith text "？".data || endswith text "?".data then "question"
  else if endswith text "！".data || endswith text "!".data then "exclamation"
  else if ["です", "である", "だ", "ます", "る", "た", "い"].any
      (fun ending => endswith text ending.data) then "statement"
  else if ["ください", "なさい", "て"].any
      (fun ending => endswith text ending.data) then "command"
  else "other"

/-- Result of `JapaneseProcessor.process_japanese_sentence`, restricted to
the pure fields (see the section comment).  `emptyInput` is the early
return `{original_text, error: EmptyInput}`: it carries no composition,
difficulty or JLPT data. -/
inductive ProcessResult where
  | emptyInput (original_text : List Char)
  | analysis (original_text : List Char) (composition : CharComposition)
      (difficulty : ℤ) (sentence_type : String)
deriving Repr, DecidableEq

/-- `JapaneseProcessor.process_japanese_sentence` (lines 69-77 and the
success path): empty or whitespace-only input returns the structured
error result before any analysis runs.  The embedding is a total
function: no exception escapes. -/
def process_japanese_sentence (text : List Char) : ProcessResult :=
  if text = [] ∨ pyStrip text = [] then ProcessResult.emptyInput text
  else
    let composition := analyze_text_composition text
    ProcessResult.analysis (pyStrip text) composition
      (estimate_difficulty text composition) (detect_sentence_type text)

/-! ### Theorems -/

/-- A `UserProgress` row with the model's default field values
(`repetition_count=0`, `easiness_factor=2.5`, `interval_days=1`,
`current_streak=0`, `best_streak=0`, `study_status="new"`,
`mastery_level=0`). -/
def sampleState : StudyState := ⟨0, 5/2, 1, 0, 0, 0, 0, "new", 0⟩

/-- C1: for every state and every integer quality rating outside `[0, 5]`,
the scheduler update operation rejects the call with an `InvalidInput`
error.  The embedding is a pure function whose error branch returns before
`update_sm2_parameters` runs, so the input state is untouched: no field is
mutated, partially or otherwise. -/
theorem C1_out_of_range_rating_rejected (s : StudyState) (q : ℤ)
    (h : q < 0 ∨ 5 < q) :
    apply_study_result s q = Except.error SchedError.invalidInput := by
  have hn : ¬(0 ≤ q ∧ q ≤ 5) := by omega
  simp [apply_study_result, hn]

/-- Witness for C1 at the default state and rating 7. -/
theorem C1_out_of_range_rating_rejected_witness :
    ((7 : ℤ) < 0 ∨ (5 : ℤ) < 7) ∧
    apply_study_result sampleState 7 = Except.error SchedError.invalidInput :=
  ⟨Or.inr (by decide),
   C1_out_of_range_rating_rejected sampleState 7 (Or.inr (by decide))⟩

/-- C2: for every state and every quality rating below 3, the update resets
`repetition_count` to 0, `interval_days` to 1 and `current_streak` to 0,
and leaves `easiness_factor` and `mastery_level` unchanged. -/
theorem C2_failed_recall_resets (s : StudyState) (q : ℤ) (h : q < 3) :
    (update_sm2_parameters s q).repetition_count = 0 ∧
    (update_sm2_parameters s q).interval_days = 1 ∧
    (update_sm2_parameters s q).current_streak = 0 ∧
    (update_sm2_parameters s q).easiness_factor = s.easiness_factor ∧
    (update_sm2_parameters s q).mastery_level = s.mastery_level := by
  have h4 : ¬(4 ≤ q) := by omega
  simp [update_sm2_parameters, h, h4]

/-- Witness for C2 at a mid-study state and rating 1. -/
theorem C2_failed_recall_resets_witness :
    ((1 : ℤ) < 3) ∧
    ((update_sm2_parameters ⟨4, 2, 10, 3, 5, 4, 4, "review", 2⟩ 1).repetition_count = 0 ∧
     (update_sm2_parameters ⟨4, 2, 10, 3, 5, 4, 4, "review", 2⟩ 1).interval_days = 1 ∧
     (update_sm2_parameters ⟨4, 2, 10, 3, 5, 4, 4, "review", 2⟩ 1).current_streak = 0 ∧
     (update_sm2_parameters ⟨4, 2, 10, 3, 5, 4, 4, "review", 2⟩ 1).easiness_factor = 2 ∧
     (update_sm2_parameters ⟨4, 2, 10, 3, 5, 4, 4, "review", 2⟩ 1).mastery_level = 2) :=
  ⟨by decide, C2_failed_recall_resets ⟨4, 2, 10, 3, 5, 4, 4, "review", 2⟩ 1 (by decide)⟩

/-- The state of the worked scheduling example: `repetition_count = 2`,
`easiness_factor = 2.5`, `interval_days = 6` (remaining fields at the
model defaults). -/
def exampleC4 : StudyState := ⟨2, 5/2, 6, 0, 0, 0, 0, "new", 0⟩

/-- C4: on a successful rating (`3 ≤ r ≤ 5`) the repetition count is the
old value plus one, and the new interval is 1 when the new count is 1, 6
when it is 2, and otherwise the old interval times the already-updated
easiness factor truncated toward zero; in particular the worked example
(`repetition_count=2`, `easiness_factor=2.5`, `interval_days=6`, rating 4)
yields easiness factor 2.5, repetition count 3 and interval 15. -/
theorem C4_success_repetition_and_interval (s : StudyState) (q : ℤ)
    (h3 : 3 ≤ q) (h5 : q ≤ 5) :
    (update_sm2_parameters s q).repetition_count = s.repetition_count + 1 ∧
    (update_sm2_parameters s q).interval_days =
      (if s.repetition_count + 1 = 1 then 1
       else if s.repetition_count + 1 = 2 then 6
       else truncInt ((s.interval_days : ℚ) * (update_sm2_parameters s q).easiness_factor)) ∧
    (update_sm2_parameters exampleC4 4).easiness_factor = 5/2 ∧
    (update_sm2_parameters exampleC4 4).repetition_count = 3 ∧
    (update_sm2_parameters exampleC4 4).interval_days = 15 := by
  have hn : ¬(q < 3) := by omega
  refine ⟨?_, ?_, ?_, ?_, ?_⟩
  · simp [update_sm2_parameters, hn]
    split_ifs <;> simp
  · simp [update_sm2_parameters, hn]
    split_ifs <;> simp_all
  · norm_num [update_sm2_parameters, exampleC4]
  · norm_num [update_sm2_parameters, exampleC4]
  · norm_num [update_sm2_parameters, exampleC4, truncInt]

/-- Witness for C4 at the worked example state and rating 4. -/
theorem C4_success_repetition_and_interval_witness :
    ((3 : ℤ) ≤ 4 ∧ (4 : ℤ) ≤ 5) ∧
    ((update_sm2_parameters exampleC4 4).repetition_count = exampleC4.repetition_count + 1 ∧
     (update_sm2_parameters exampleC4 4).interval_days =
       (if exampleC4.repetition_count + 1 = 1 then 1
        else if exampleC4.repetition_count + 1 = 2 then 6
        else truncInt ((exampleC4.interval_days : ℚ) * (update_sm2_parameters exampleC4 4).easiness_factor)) ∧
     (update_sm2_parameters exampleC4 4).easiness_factor = 5/2 ∧
     (update_sm2_parameters exampleC4 4).repetition_count = 3 ∧
     (update_sm2_parameters exampleC4 4).interval_days = 15) :=
  ⟨⟨by norm_num, by norm_num⟩,
   C4_success_repetition_and_interval exampleC4 4 (by norm_num) (by norm_num)⟩

/-- C5: the update preserves the scheduler state invariant for every
rating in `[0, 5]`: easiness factor stays at least 1.3, interval stays at
least 1, and within the documented 0-5 mastery scale the mastery level
never decreases (a poor-rating reset touches only `repetition_count`,
`current_streak` and `interval_days`) and stays on the scale. -/
theorem C5_invariant (s : StudyState) (q : ℤ) (hq0 : 0 ≤ q) (hq5 : q ≤ 5)
    (hef : (13/10 : ℚ) ≤ s.easiness_factor) (hiv : 1 ≤ s.interval_days) :
    (13/10 : ℚ) ≤ (update_sm2_parameters s q).easiness_factor ∧
    1 ≤ (update_sm2_parameters s q).interval_days ∧
    (s.mastery_level ≤ 5 →
      s.mastery_level ≤ (update_sm2_parameters s q).mastery_level ∧
      (update_sm2_parameters s q).mastery_level ≤ 5) := by
  have key : ∀ x : ℚ, (1:ℚ) ≤ x → 1 ≤ truncInt x := fun x hx => by
    rw [truncInt, if_pos (le_trans (by norm_num) hx)]
    exact Int.le_floor.mpr (by exact_mod_cast hx)
  by_cases hq : q < 3
  · simp only [update_sm2_parameters, if_pos hq]
    split_ifs with a b <;> dsimp only at a ⊢ <;>
      exact ⟨hef, by omega, fun hm => by omega⟩
  · have hone : (1:ℚ) ≤ (s.interval_days : ℚ) *
        (max (13/10 : ℚ) (s.easiness_factor +
          (1/10 - ((5 - q : ℤ) : ℚ) * (2/25 + ((5 - q : ℤ) : ℚ) * (1/50))))) := by
      have ha : (1:ℚ) ≤ (s.interval_days : ℚ) := by exact_mod_cast hiv
      have hb : (1:ℚ) ≤ max (13/10 : ℚ) (s.easiness_factor +
          (1/10 - ((5 - q : ℤ) : ℚ) * (2/25 + ((5 - q : ℤ) : ℚ) * (1/50)))) :=
        le_trans (by norm_num) (le_max_left _ _)
      nlinarith
    simp only [update_sm2_parameters, if_neg hq]
    split_ifs <;>
      refine ⟨le_max_left _ _, ?_, fun hm => by dsimp only; omega⟩ <;>
      dsimp only <;>
      first | omega | exact key _ hone

/-- Witness for C5 at the default state and rating 4. -/
theorem C5_invariant_witness :
    ((0 : ℤ) ≤ 4 ∧ (4 : ℤ) ≤ 5 ∧
     (13/10 : ℚ) ≤ sampleState.easiness_factor ∧ 1 ≤ sampleState.interval_days) ∧
    ((13/10 : ℚ) ≤ (update_sm2_parameters sampleState 4).easiness_factor ∧
     1 ≤ (update_sm2_parameters sampleState 4).interval_days ∧
     (sampleState.mastery_level ≤ 5 →
       sampleState.mastery_level ≤ (update_sm2_parameters sampleState 4).mastery_level ∧
       (update_sm2_parameters sampleState 4).mastery_level ≤ 5)) :=
  ⟨⟨by norm_num, by norm_num, by norm_num [sampleState], by norm_num [sampleState]⟩,
   C5_invariant sampleState 4 (by norm_num) (by norm_num)
     (by norm_num [sampleState]) (by norm_num [sampleState])⟩

/-- C6: the mastery transition acts only on the successful branch
(`3 ≤ q`), after the interval update.  On that branch: if the updated
streak reaches 5 and `4 ≤ q`, the mastery level becomes
`min 5 (mastery_level + 1)` and the status becomes "mastered" exactly when
the resulting level is at least 4 (otherwise the status is untouched);
otherwise, the repetition count being positive, the status becomes
"review" (the rating is at least 3 there; the code's "learning" arm needs
a rating below 3, which lands in the reset branch instead).  On the failed
branch (`q < 3`) neither the mastery level nor the status changes. -/
theorem C6_mastery_transition (s : StudyState) (q : ℤ) (hrep : 0 ≤ s.repetition_count) :
    (3 ≤ q →
      ((5 ≤ s.current_streak + 1 ∧ 4 ≤ q) →
        (update_sm2_parameters s q).mastery_level = min 5 (s.mastery_level + 1) ∧
        (4 ≤ min 5 (s.mastery_level + 1) →
          (update_sm2_parameters s q).study_status = "mastered") ∧
        (min 5 (s.mastery_level + 1) < 4 →
          (update_sm2_parameters s q).study_status = s.study_status)) ∧
      ((s.current_streak + 1 < 5 ∨ q < 4) →
        (update_sm2_parameters s q).mastery_level = s.mastery_level ∧
        (update_sm2_parameters s q).study_status = "review")) ∧
    (q < 3 →
      (update_sm2_parameters s q).mastery_level = s.mastery_level ∧
      (update_sm2_parameters s q).study_status = s.study_status) := by
  refine ⟨fun h3 => ?_, fun hlt => ?_⟩
  · have hn : ¬(q < 3) := by omega
    have hmast : (update_sm2_parameters s q).mastery_level =
        (if 5 ≤ s.current_streak + 1 ∧ 4 ≤ q then min 5 (s.mastery_level + 1)
         else s.mastery_level) := by
      simp only [update_sm2_parameters, if_neg hn]
      split_ifs <;> dsimp only at * <;> first | rfl | omega | (exfalso; omega)
    have hstat : (update_sm2_parameters s q).study_status =
        (if 5 ≤ s.current_streak + 1 ∧ 4 ≤ q then
          (if 4 ≤ min 5 (s.mastery_level + 1) then "mastered" else s.study_status)
         else "review") := by
      simp only [update_sm2_parameters, if_neg hn]
      split_ifs <;> dsimp only at * <;> first | rfl | omega | (exfalso; omega)
    constructor
    · intro hc
      rw [hmast, hstat, if_pos hc, if_pos hc]
      exact ⟨rfl, fun h4m => by rw [if_pos h4m],
             fun hlt4 => by rw [if_neg (by omega)]⟩
    · intro hnc
      have hnc2 : ¬(5 ≤ s.current_streak + 1 ∧ 4 ≤ q) := by omega
      rw [hmast, hstat, if_neg hnc2, if_neg hnc2]
      exact ⟨rfl, rfl⟩
  · simp only [update_sm2_parameters, if_pos hlt]
    split_ifs <;> dsimp only at * <;>
      first | exact ⟨rfl, rfl⟩ | (exfalso; omega)

/-- Witness for C6 at a state with streak 4 and rating 5: the streak
reaches 5 and the mastery level rises from 3 to 4, making the item
"mastered". -/
theorem C6_mastery_transition_witness :
    (0 : ℤ) ≤ (⟨6, 2, 10, 8, 9, 4, 4, "review", 3⟩ : StudyState).repetition_count ∧
    ((3 : ℤ) ≤ 5 →
      ((5 ≤ (⟨6, 2, 10, 8, 9, 4, 4, "review", 3⟩ : StudyState).current_streak + 1 ∧ (4 : ℤ) ≤ 5) →
        (update_sm2_parameters ⟨6, 2, 10, 8, 9, 4, 4, "review", 3⟩ 5).mastery_level =
          min 5 ((⟨6, 2, 10, 8, 9, 4, 4, "review", 3⟩ : StudyState).mastery_level + 1) ∧
        (4 ≤ min 5 ((⟨6, 2, 10, 8, 9, 4, 4, "review", 3⟩ : StudyState).mastery_level + 1) →
          (update_sm2_parameters ⟨6, 2, 10, 8, 9, 4, 4, "review", 3⟩ 5).study_status = "mastered") ∧
        (min 5 ((⟨6, 2, 10, 8, 9, 4, 4, "review", 3⟩ : StudyState).mastery_level + 1) < 4 →
          (update_sm2_parameters ⟨6, 2, 10, 8, 9, 4, 4, "review", 3⟩ 5).study_status =
            (⟨6, 2, 10, 8, 9, 4, 4, "review", 3⟩ : StudyState).study_status)) ∧
      (((⟨6, 2, 10, 8, 9, 4, 4, "review", 3⟩ : StudyState).current_streak + 1 < 5 ∨ (5 : ℤ) < 4) →
        (update_sm2_parameters ⟨6, 2, 10, 8, 9, 4, 4, "review", 3⟩ 5).mastery_level =
          (⟨6, 2, 10, 8, 9, 4, 4, "review", 3⟩ : StudyState).mastery_level ∧
        (update_sm2_parameters ⟨6, 2, 10, 8, 9, 4, 4, "review", 3⟩ 5).study_status = "review")) ∧
    ((5 : ℤ) < 3 →
      (update_sm2_parameters ⟨6, 2, 10, 8, 9, 4, 4, "review", 3⟩ 5).mastery_level =
        (⟨6, 2, 10, 8, 9, 4, 4, "review", 3⟩ : StudyState).mastery_level ∧
      (update_sm2_parameters ⟨6, 2, 10, 8, 9, 4, 4, "review", 3⟩ 5).study_status =
        (⟨6, 2, 10, 8, 9, 4, 4, "review", 3⟩ : StudyState).study_status) :=
  ⟨by norm_num,
   C6_mastery_transition ⟨6, 2, 10, 8, 9, 4, 4, "review", 3⟩ 5 (by norm_num)⟩

/-- Each loop iteration of `analyze_text_composition` raises the bucket
total by exactly one: the `if`/`elif`/`else` chain puts the character in
exactly one bucket. -/
lemma total_countStep (r : CharComposition) (c : Char) :
    (countStep r c).total = r.total + 1 := by
  unfold countStep
  split_ifs <;> simp [CharComposition.total] <;> omega

/-- Folding the character loop adds the list length to the bucket total. -/
lemma total_foldl (l : List Char) : ∀ r : CharComposition,
    (l.foldl countStep r).total = r.total + l.length := by
  induction l with
  | nil => intro r; simp
  | cons c t ih =>
      intro r
      simp only [List.foldl_cons, List.length_cons, ih, total_countStep]
      omega

/-- The bucket total of `analyze_text_composition` is the text length. -/
lemma analyze_total_eq_length (text : List Char) :
    (analyze_text_composition text).total = text.length := by
  unfold analyze_text_composition
  rw [total_foldl]
  simp [CharComposition.total]

/-- C10: the composition analysis assigns every character to exactly one
of the five buckets, so the five counts sum to the length of the string;
consequently the kanji ratio lies in `[0, 1]` for non-empty input. -/
theorem C10_buckets_partition (text : List Char) :
    (analyze_text_composition text).kanji + (analyze_text_composition text).hiragana +
      (analyze_text_composition text).katakana + (analyze_text_composition text).ascii +
      (analyze_text_composition text).other = text.length ∧
    (text ≠ [] →
      0 ≤ ((analyze_text_composition text).kanji : ℚ) /
            ((analyze_text_composition text).total : ℚ) ∧
      ((analyze_text_composition text).kanji : ℚ) /
            ((analyze_text_composition text).total : ℚ) ≤ 1) := by
  have hval := analyze_total_eq_length text
  unfold CharComposition.total at hval
  refine ⟨hval, fun hne => ?_⟩
  have hpos : 0 < (analyze_text_composition text).total := by
    rw [analyze_total_eq_length]
    exact List.length_pos.mpr hne
  have hposq : (0:ℚ) < ((analyze_text_composition text).total : ℚ) := by
    exact_mod_cast hpos
  constructor
  · positivity
  · rw [div_le_one hposq]
    have hk : (analyze_text_composition text).kanji ≤ (analyze_text_composition text).total := by
      unfold CharComposition.total; omega
    exact_mod_cast hk

/-- Witness for C10 on a mixed kanji/ASCII string. -/
theorem C10_buckets_partition_witness :
    ((analyze_text_composition "今日a".data).kanji +
      (analyze_text_composition "今日a".data).hiragana +
      (analyze_text_composition "今日a".data).katakana +
      (analyze_text_composition "今日a".data).ascii +
      (analyze_text_composition "今日a".data).other = "今日a".data.length) ∧
    (0 ≤ ((analyze_text_composition "今日a".data).kanji : ℚ) /
          ((analyze_text_composition "今日a".data).total : ℚ) ∧
     ((analyze_text_composition "今日a".data).kanji : ℚ) /
          ((analyze_text_composition "今日a".data).total : ℚ) ≤ 1) :=
  ⟨(C10_buckets_partition "今日a".data).1,
   (C10_buckets_partition "今日a".data).2 (by decide)⟩

/-- Follows the spec's words for C7: the JLPT level determined by the
kanji ratio, thresholds checked in ascending order, first match wins. -/
def specJlptOfRatio (ratio : ℚ) : String :=
  if ratio = 0 then "N5"
  else if ratio ≤ 1/5 then "N4"
  else if ratio ≤ 2/5 then "N3"
  else if ratio ≤ 3/5 then "N2"
  else "N1"

/-- C7: for non-empty text the bucket total is positive and the JLPT
estimate is exactly the ascending-threshold classification of
`kanjiCount / totalCharCount`; with a zero bucket total (the empty text)
the JLPT level is `none` and the difficulty is 1. -/
theorem C7_jlpt_thresholds (text : List Char) (h : text ≠ []) :
    0 < (analyze_text_composition text).total ∧
    estimate_jlpt_level text =
      some (specJlptOfRatio (((analyze_text_composition text).kanji : ℚ) /
        ((analyze_text_composition text).total : ℚ))) ∧
    estimate_jlpt_level [] = none ∧
    estimate_difficulty [] (analyze_text_composition []) = 1 := by
  have hpos : 0 < (analyze_text_composition text).total := by
    rw [analyze_total_eq_length]
    exact List.length_pos.mpr h
  refine ⟨hpos, ?_, by decide, by decide⟩
  simp only [estimate_jlpt_level, specJlptOfRatio]
  rw [if_neg (by omega)]
  split_ifs <;> rfl

/-- Witness for C7 on the one-kanji string "日". -/
theorem C7_jlpt_thresholds_witness :
    "日".data ≠ [] ∧
    (0 < (analyze_text_composition "日".data).total ∧
     estimate_jlpt_level "日".data =
       some (specJlptOfRatio (((analyze_text_composition "日".data).kanji : ℚ) /
         ((analyze_text_composition "日".data).total : ℚ))) ∧
     estimate_jlpt_level [] = none ∧
     estimate_difficulty [] (analyze_text_composition []) = 1) :=
  ⟨by decide, C7_jlpt_thresholds "日".data (by decide)⟩

/-- The worked analysis example, the sentence "今日は晴れです". -/
def exampleC8 : List Char := "今日は晴れです".data

/-- Follows the spec's words for C8: base difficulty from the kanji
ratio, same thresholds as the JLPT estimate. -/
def specDifficultyBase (ratio : ℚ) : ℤ :=
  if ratio = 0 then 1
  else if ratio ≤ 1/5 then 2
  else if ratio ≤ 2/5 then 3
  else if ratio ≤ 3/5 then 4
  else 5

/-- Follows the spec's words for C8: the base difficulty adjusted by raw
character length, capped at 5 and floored at 1. -/
def specAdjustedDifficulty (ratio : ℚ) (len : ℕ) : ℤ :=
  if 50 < len then min 5 (specDifficultyBase ratio + 1)
  else if len < 10 then max 1 (specDifficultyBase ratio - 1)
  else specDifficultyBase ratio

/-- C8: for non-empty text the difficulty estimate equals the base level
from the kanji ratio adjusted by raw length; on "今日は晴れです" the
composition has 3 kanji, ratio `3/7`, JLPT level "N2", base difficulty 4
and final difficulty 3 because the length 7 is below 10. -/
theorem C8_difficulty (text : List Char) (h : text ≠ []) :
    estimate_difficulty text (analyze_text_composition text) =
      specAdjustedDifficulty
        (((analyze_text_composition text).kanji : ℚ) /
          ((analyze_text_composition text).total : ℚ)) text.length ∧
    (analyze_text_composition exampleC8).kanji = 3 ∧
    ((analyze_text_composition exampleC8).kanji : ℚ) /
        ((analyze_text_composition exampleC8).total : ℚ) = 3/7 ∧
    estimate_jlpt_level exampleC8 = some "N2" ∧
    specDifficultyBase (3/7) = 4 ∧
    exampleC8.length = 7 ∧
    estimate_difficulty exampleC8 (analyze_text_composition exampleC8) = 3 := by
  have hpos : 0 < (analyze_text_composition text).total := by
    rw [analyze_total_eq_length]
    exact List.length_pos.mpr h
  have hcomp : analyze_text_composition exampleC8 = ⟨3, 4, 0, 0, 0⟩ := by decide
  have hlen : exampleC8.length = 7 := by decide
  refine ⟨?_, by rw [hcomp], ?_, ?_, ?_, hlen, ?_⟩
  · simp only [estimate_difficulty, specAdjustedDifficulty, specDifficultyBase]
    rw [if_neg (by omega)]
  · rw [hcomp]; norm_num [CharComposition.total]
  · simp only [estimate_jlpt_level, hcomp]; norm_num [CharComposition.total]
  · norm_num [specDifficultyBase]
  · simp only [estimate_difficulty, hcomp, hlen]; norm_num [CharComposition.total]

/-- Witness for C8 at the worked example itself. -/
theorem C8_difficulty_witness :
    exampleC8 ≠ [] ∧
    (estimate_difficulty exampleC8 (analyze_text_composition exampleC8) =
      specAdjustedDifficulty
        (((analyze_text_composition exampleC8).kanji : ℚ) /
          ((analyze_text_composition exampleC8).total : ℚ)) exampleC8.length ∧
     (analyze_text_composition exampleC8).kanji = 3 ∧
     ((analyze_text_composition exampleC8).kanji : ℚ) /
         ((analyze_text_composition exampleC8).total : ℚ) = 3/7 ∧
     estimate_jlpt_level exampleC8 = some "N2" ∧
     specDifficultyBase (3/7) = 4 ∧
     exampleC8.length = 7 ∧
     estimate_difficulty exampleC8 (analyze_text_composition exampleC8) = 3) :=
  ⟨by decide, C8_difficulty exampleC8 (by decide)⟩

/-- C9: an empty or whitespace-only text makes
`process_japanese_sentence` return the structured empty-input error
result, which carries no composition, difficulty or JLPT data; the
embedding is a total function, so no exception can escape to abort a
batch import. -/
theorem C9_blank_input (text : List Char) (h : ∀ c ∈ text, pyIsSpace c = true) :
    process_japanese_sentence text = ProcessResult.emptyInput text := by
  have hstrip : pyStrip text = [] := by
    unfold pyStrip
    have h1 : text.dropWhile pyIsSpace = [] := List.dropWhile_eq_nil_iff.mpr h
    simp [h1]
  unfold process_japanese_sentence
  rw [if_pos (Or.inr hstrip)]

/-- Witness for C9 on a string of a space, a tab and an ideographic
space. -/
theorem C9_blank_input_witness :
    process_japanese_sentence " \t　".data = ProcessResult.emptyInput " \t　".data :=
  C9_blank_input " \t　".data (by decide)

/-- A non-empty suffix fixes the last element of the list. -/
lemma suffix_getLast {pat t : List Char} (hs : pat <:+ t) (hne : pat ≠ []) :
    t.getLast? = pat.getLast? := by
  obtain ⟨u, rfl⟩ := hs
  exact List.getLast?_append_of_ne_nil u hne

/-- A pattern whose last character differs from the text's last character
is not a suffix of the text. -/
lemma endswith_false_of_getLast {t pat : List Char} {c : Char}
    (hlast : t.getLast? = some c) (hne : pat ≠ [])
    (hpat : pat.getLast? ≠ some c) : endswith t pat = false := by
  apply decide_eq_false
  intro hs
  exact hpat ((suffix_getLast hs hne).symm.trans hlast)

/-- C3 counterexample: the text "ください" ends with the command suffix
ください (and with none of ？, ?, ！, !), yet the classifier returns
"statement", not "command": the statement-suffix check runs first and its
suffix い catches the text. -/
theorem C3_kudasai_is_statement :
    detect_sentence_type "ください".data = "statement" ∧
    detect_sentence_type "ください".data ≠ "command" := by decide

/-- C3 amended: the statement suffixes are checked before the command
suffixes.  A trimmed text ending in て (which no question, exclamation or
statement suffix matches) is classified "command", but trimmed texts
ending in ください or なさい end in the statement suffix い and are
classified "statement". -/
theorem C3_command_statement_order (t1 t2 t3 : List Char)
    (h1 : endswith (pyStrip t1) "て".data = true)
    (h2 : endswith (pyStrip t2) "ください".data = true)
    (h3 : endswith (pyStrip t3) "なさい".data = true) :
    detect_sentence_type t1 = "command" ∧
    detect_sentence_type t2 = "statement" ∧
    detect_sentence_type t3 = "statement" := by
  refine ⟨?_, ?_, ?_⟩
  · have hlast : (pyStrip t1).getLast? = some 'て' := by
      rw [suffix_getLast (of_decide_eq_true h1) (by decide)]; decide
    have e1 : endswith (pyStrip t1) "？".data = false :=
      endswith_false_of_getLast hlast (by decide) (by decide)
    have e2 : endswith (pyStrip t1) "?".data = false :=
      endswith_false_of_getLast hlast (by decide) (by decide)
    have e3 : endswith (pyStrip t1) "！".data = false :=
      endswith_false_of_getLast hlast (by decide) (by decide)
    have e4 : endswith (pyStrip t1) "!".data = false :=
      endswith_false_of_getLast hlast (by decide) (by decide)
    have s1 : endswith (pyStrip t1) "です".data = false :=
      endswith_false_of_getLast hlast (by decide) (by decide)
    have s2 : endswith (pyStrip t1) "である".data = false :=
      endswith_false_of_getLast hlast (by decide) (by decide)
    have s3 : endswith (pyStrip t1) "だ".data = false :=
      endswith_false_of_getLast hlast (by decide) (by decide)
    have s4 : endswith (pyStrip t1) "ます".data = false :=
      endswith_false_of_getLast hlast (by decide) (by decide)
    have s5 : endswith (pyStrip t1) "る".data = false :=
      endswith_false_of_getLast hlast (by decide) (by decide)
    have s6 : endswith (pyStrip t1) "た".data = false :=
      endswith_false_of_getLast hlast (by decide) (by decide)
    have s7 : endswith (pyStrip t1) "い".data = false :=
      endswith_false_of_getLast hlast (by decide) (by decide)
    simp [detect_sentence_type, e1, e2, e3, e4, s1, s2, s3, s4, s5, s6, s7, h1]
  · have hlast : (pyStrip t2).getLast? = some 'い' := by
      rw [suffix_getLast (of_decide_eq_true h2) (by decide)]; decide
    have ei : endswith (pyStrip t2) "い".data = true :=
      decide_eq_true (List.IsSuffix.trans (by decide) (of_decide_eq_true h2))
    have e1 : endswith (pyStrip t2) "？".data = false :=
      endswith_false_of_getLast hlast (by decide) (by decide)
    have e2 : endswith (pyStrip t2) "?".data = false :=
      endswith_false_of_getLast hlast (by decide) (by decide)
    have e3 : endswith (pyStrip t2) "！".data = false :=
      endswith_false_of_getLast hlast (by decide) (by decide)
    have e4 : endswith (pyStrip t2) "!".data = false :=
      endswith_false_of_getLast hlast (by decide) (by decide)
    simp [detect_sentence_type, e1, e2, e3, e4, ei]
  · have hlast : (pyStrip t3).getLast? = some 'い' := by
      rw [suffix_getLast (of_decide_eq_true h3) (by decide)]; decide
    have ei : endswith (pyStrip t3) "い".data = true :=
      decide_eq_true (List.IsSuffix.trans (by decide) (of_decide_eq_true h3))
    have e1 : endswith (pyStrip t3) "？".data = false :=
      endswith_false_of_getLast hlast (by decide) (by decide)
    have e2 : endswith (pyStrip t3) "?".data = false :=
      endswith_false_of_getLast hlast (by decide) (by decide)
    have e3 : endswith (pyStrip t3) "！".data = false :=
      endswith_false_of_getLast hlast (by decide) (by decide)
    have e4 : endswith (pyStrip t3) "!".data = false :=
      endswith_false_of_getLast hlast (by decide) (by decide)
    simp [detect_sentence_type, e1, e2, e3, e4, ei]

/-- Witness for the amended C3 on 止まって, ください and なさい. -/
theorem C3_command_statement_order_witness :
    (endswith (pyStrip "止まって".data) "て".data = true ∧
     endswith (pyStrip "ください".data) "ください".data = true ∧
     endswith (pyStrip "なさい".data) "なさい".data = true) ∧
    (detect_sentence_type "止まって".data = "command" ∧
     detect_sentence_type "ください".data = "statement" ∧
     detect_sentence_type "なさい".data = "statement") :=
  ⟨⟨by decide, by decide, by decide⟩,
   C3_command_statement_order "止まって".data "ください".data "なさい".data
     (by decide) (by decide) (by decide)⟩

/-- C5 counterexample to the unrestricted mastery monotonicity: a state
with easiness factor 2.5 and interval 1 satisfies the claim's hypotheses,
but with mastery level 6 (off the documented 0-5 scale) a rating of 4 at
streak 4 triggers the mastery increment `min 5 (6 + 1) = 5`, which lowers
the mastery level. -/
theorem C5_mastery_decrease_counterexample :
    (13/10 : ℚ) ≤ (⟨0, 5/2, 1, 0, 0, 4, 4, "review", 6⟩ : StudyState).easiness_factor ∧
    1 ≤ (⟨0, 5/2, 1, 0, 0, 4, 4, "review", 6⟩ : StudyState).interval_days ∧
    (update_sm2_parameters ⟨0, 5/2, 1, 0, 0, 4, 4, "review", 6⟩ 4).mastery_level <
      (⟨0, 5/2, 1, 0, 0, 4, 4, "review", 6⟩ : StudyState).mastery_level := by
  refine ⟨by norm_num, by norm_num, ?_⟩
  norm_num [update_sm2_parameters]
